import Mathlib

/-!
Shallow embedding of the `toolbar` error-interception core:
`toolbar/except_handlers/accessories.py`, `toolbar/except_handlers/interfaces.py`
and `decorators/except_handlers.py`.

Modelling conventions:
* An exception instance is an `ExcVal`: its class name, the text its `str()`
  renders (standard single-argument exceptions render their message), and
  whether its class is a subclass of `Exception` (as opposed to a
  `BaseException`-only class such as `SystemExit`).
* A `Union[Exception, Type[Exception]]` parameter is an `ExcOrType`; a class
  carries its name and whether it is a subclass of `Exception`.
* `raise X from Y` is modelled by a `Raised` record: the exception object that
  propagates and the value its `dunder cause` attribute was set to (`none` when
  no `from` clause ran).
* A `Logger` argument is `Option Unit` (present or absent); a successful
  `log_obj.log(level, msg)` call is a `LogRecord`.
* Python values that flow through the wrappers are `PyVal` (primitives plus
  flat tuples and string-keyed dicts, enough for argument capture and
  fallback outputs).
* A wrapped function call is summarised by its observable outcome
  `CallResult`: a returned value, or a raised exception instance.
  The wrapper itself produces a `WrapOutcome`: the emitted log records in
  order, and whether it returned a value or raised.
-/

/-- A Python exception instance: class name, its `str()` text, and whether its
class derives from `Exception` (false for `BaseException`-only kinds). -/
structure ExcVal where
  className : String
  msg : String
  isException : Bool
  deriving DecidableEq, Repr

/-- A value that is either an exception instance or an exception class
(`Union[Exception, Type[Exception]]`).  A class carries `issubclass(c, Exception)`. -/
inductive ExcOrType where
  | inst (e : ExcVal)
  | cls (name : String) (isExcSub : Bool)
  deriving DecidableEq, Repr

/-- `accessories.is_exc_instance`: `isinstance(obj, Exception)`. -/
def is_exc_instance : ExcOrType → Bool
  | .inst e => e.isException
  | .cls _ _ => false

/-- `accessories.is_pure_exc_class`: a class that is a subclass of `Exception`
and not itself an instance. -/
def is_pure_exc_class : ExcOrType → Bool
  | .inst _ => false
  | .cls _ b => b

/-- `accessories.is_exception`: instance or pure class. -/
def is_exception (o : ExcOrType) : Bool :=
  is_exc_instance o || is_pure_exc_class o

/-- Raising an `ExcOrType`: `raise C` on a class instantiates it with no
arguments (whose `str()` is the empty string); an instance is raised as-is.
The same rule applies to the object named in a `from` clause. -/
def ExcOrType.instantiate : ExcOrType → ExcVal
  | .inst e => e
  | .cls n b => ⟨n, "", b⟩

/-- Calling a class with a message argument, `err(err_msg)`.  On an instance
this is never reached at guarded call sites and returns the instance. -/
def instantiate_with : ExcOrType → String → ExcVal
  | .inst e, _ => e
  | .cls n b, m => ⟨n, m, b⟩

/-- Python `str()` of an `ExcOrType`: an instance renders its message text, a
class renders as its printed form. -/
def ExcOrType.pyStr : ExcOrType → String
  | .inst e => e.msg
  | .cls n _ => "<class \x27" ++ n ++ "\x27>"

/-- The `err_to_log` argument of `log_err`:
`Union[Exception, Type[Exception], str]`. -/
inductive ErrToLog where
  | err (e : ExcOrType)
  | str (s : String)
  deriving DecidableEq, Repr

/-- Python `str()` of an `err_to_log` value (the coercion an f-string applies). -/
def ErrToLog.pyStr : ErrToLog → String
  | .err e => e.pyStr
  | .str s => s

/-- `accessories.get_err_str`: an `Exception` instance renders as
`ClassName: text`; anything else is handed back and later coerced by the
surrounding f-string. -/
def get_err_str (e : ErrToLog) : String :=
  match e with
  | .err o => if is_exc_instance o then
      (match o with
       | .inst i => i.className ++ ": " ++ i.msg
       | .cls n _ => n)
    else e.pyStr
  | .str _ => e.pyStr

/-- `accessories.simple_msg_err`. -/
def simple_msg_err (err : ErrToLog) (func_name : String) : String :=
  "<" ++ func_name ++ "> " ++ get_err_str err

/-- `accessories.annotated_msg_err`. -/
def annotated_msg_err (err : ErrToLog) (func_name : String) (err_annotated : String) : String :=
  "<" ++ func_name ++ "> " ++ err_annotated ++ ": " ++ get_err_str err

/-- `accessories.get_simple_or_annotated`: dispatch on `err_annotated is None`. -/
def get_simple_or_annotated (err : ErrToLog) (func_name : String)
    (err_annotated : Option String) : String :=
  match err_annotated with
  | none => simple_msg_err err func_name
  | some a => annotated_msg_err err func_name a

/-- Python primitive values. -/
inductive PrimVal where
  | none
  | str (s : String)
  | int (n : Int)
  | boolv (b : Bool)
  deriving DecidableEq, Repr

/-- Python `repr()` of a primitive. -/
def PrimVal.pyRepr : PrimVal → String
  | .none => "None"
  | .str s => "\x27" ++ s ++ "\x27"
  | .int n => toString n
  | .boolv b => if b then "True" else "False"

/-- Python `repr()`/`str()` of a tuple of primitives. -/
def pyReprTuple (es : List PrimVal) : String :=
  match es with
  | [] => "()"
  | [e] => "(" ++ e.pyRepr ++ ",)"
  | _ => "(" ++ String.intercalate ", " (es.map PrimVal.pyRepr) ++ ")"

/-- Python `repr()`/`str()` of a string-keyed dict of primitives. -/
def pyReprDict (es : List (String × PrimVal)) : String :=
  "\x7b" ++ String.intercalate ", "
    (es.map (fun kv => "\x27" ++ kv.1 ++ "\x27: " ++ kv.2.pyRepr)) ++ "\x7d"

/-- Python values flowing through the wrappers: primitives plus flat tuples
and string-keyed dicts. -/
inductive PyVal where
  | prim (p : PrimVal)
  | tuple (elems : List PrimVal)
  | dict (entries : List (String × PrimVal))
  deriving DecidableEq, Repr

/-- Python `str()` of a value (`str` of a string drops the quotes). -/
def PyVal.pyStr : PyVal → String
  | .prim (.str s) => s
  | .prim p => p.pyRepr
  | .tuple es => pyReprTuple es
  | .dict es => pyReprDict es

/-- Runtime type tags for the `isinstance` checks of `raise_if_return`. -/
inductive PyType where
  | noneType
  | str
  | int
  | bool
  | tuple
  | dict
  deriving DecidableEq, Repr

/-- The runtime type of a value. -/
def PyVal.typeOf : PyVal → PyType
  | .prim .none => .noneType
  | .prim (.str _) => .str
  | .prim (.int _) => .int
  | .prim (.boolv _) => .bool
  | .tuple _ => .tuple
  | .dict _ => .dict

/-- `isinstance(v, ts)` for a tuple of type tags; `bool` is a subclass of
`int` in Python. -/
def pyIsinstance (v : PyVal) (ts : List PyType) : Bool :=
  ts.any (fun t => v.typeOf == t || (v.typeOf == .bool && t == .int))

/-- One record written through the logging sink: level and rendered message. -/
structure LogRecord where
  level : Nat
  msg : String
  deriving DecidableEq, Repr

/-- The observable effect of a `raise` statement: the propagating exception
instance and what its `dunder cause` was set to. -/
structure Raised where
  exc : ExcVal
  cause : Option ExcVal
  deriving DecidableEq, Repr

/-- The `source_func` argument: a callable (carrying its name), a plain
string, or absent. -/
inductive SourceFunc where
  | none
  | func (name : String)
  | str (s : String)
  deriving DecidableEq, Repr

/-- `interfaces.raise_type`: demands a pure exception class, instantiates it
with the message when one is given, and raises the fresh instance (no `from`
clause, so no declared cause). -/
def raise_type (err : ExcOrType) (msg : Option String) : Raised :=
  if ¬ is_pure_exc_class err then
    ⟨⟨"TypeError",
      "Аргумент " ++ err.pyStr ++ " должен быть типом исключения, а не экземпляром исключения",
      true⟩, none⟩
  else
    match msg with
    | some m => ⟨instantiate_with err m, none⟩
    | none => ⟨err.instantiate, none⟩

/-- `interfaces.raise_except`: `if err_raise: raise err_raise from (err if
from_err else err_raise)` — the conditional expression binds to the `from`
operand — `raise err` otherwise. -/
def raise_except (err : ExcOrType) (err_raise : Option ExcOrType) (from_err : Bool) : Raised :=
  match err_raise with
  | some er => ⟨er.instantiate, some ((if from_err then err else er).instantiate)⟩
  | none => ⟨err.instantiate, none⟩

/-- `interfaces.log_err`: absent `log_obj` raises an `AttributeError` through
`raise_type`; otherwise resolves the function name, composes the message and
writes exactly one record. -/
def log_err (err_to_log : ErrToLog) (err_annotated : Option String)
    (log_obj : Option Unit) (log_level : Nat) (source_func : SourceFunc) :
    Except Raised LogRecord :=
  let get_func_name : SourceFunc → String
    | .none => "log_err"
    | .func n => n
    | .str s => s
  match log_obj with
  | none => .error (raise_type (.cls "AttributeError" true)
      (some "Отсутствует объект логирования"))
  | some _ =>
    let func_name := get_func_name source_func
    let err_msg := get_simple_or_annotated err_to_log func_name err_annotated
    .ok ⟨log_level, err_msg⟩

/-- `interfaces.intercept_err_and_log`: log (failure aborts with no record and
no re-raise), then `raise_except`. -/
def intercept_err_and_log (err : ExcOrType) (err_annotated : Option String)
    (err_raise : Option ExcOrType) (log_obj : Option Unit) (log_level : Nat)
    (from_err : Bool) (source_func : SourceFunc) : List LogRecord × Raised :=
  match log_err (.err err) err_annotated log_obj log_level source_func with
  | .error r => ([], r)
  | .ok rec => ([rec], raise_except err err_raise from_err)

/-- `interfaces.raise_err_and_log`: instantiate a pure class when a message is
supplied, log, then raise the resolved exception. -/
def raise_err_and_log (err : ExcOrType) (err_message : Option String)
    (err_annotated : Option String) (log_obj : Option Unit) (log_level : Nat)
    (source_func : SourceFunc) : List LogRecord × Raised :=
  let exc_err :=
    if is_pure_exc_class err then
      match err_message with
      | some m => ExcOrType.inst (instantiate_with err m)
      | none => err
    else err
  match log_err (.err exc_err) err_annotated log_obj log_level source_func with
  | .error r => ([], r)
  | .ok rec => ([rec], raise_except exc_err none true)

/-- The observable outcome of one wrapped call: the wrapped function either
returned a value or raised an exception instance (whose `isException` flag
says whether `except Exception` can catch it). -/
inductive CallResult where
  | ok (v : PyVal)
  | exc (e : ExcVal)
  deriving DecidableEq, Repr

/-- What the wrapper did: returned a value or raised. -/
inductive WrapResult where
  | ret (v : PyVal)
  | raised (r : Raised)
  deriving DecidableEq, Repr

/-- Whether the wrapper ended in a raise. -/
def WrapResult.isRaised : WrapResult → Bool
  | .ret _ => false
  | .raised _ => true

/-- The wrapper's observable behaviour on one call: emitted log records in
order, then the control outcome. -/
structure WrapOutcome where
  logs : List LogRecord
  result : WrapResult
  deriving DecidableEq, Repr

/-- `decorators._err_annotated_msg`: when `add_args` is set, append
`args=..., kwargs=...` to the annotation after a space (a `None` or empty
annotation is replaced by the fragment alone — Python truthiness). -/
def _err_annotated_msg (err_a : Option String) (add_args : Bool)
    (args : List PrimVal) (kwargs : List (String × PrimVal)) : Option String :=
  if add_args then
    let args_kwargs_a := "args=" ++ pyReprTuple args ++ ", kwargs=" ++ pyReprDict kwargs
    match err_a with
    | some a => if a.isEmpty then some args_kwargs_a else some (a ++ " " ++ args_kwargs_a)
    | none => some args_kwargs_a
  else err_a

/-- `decorators.err_interceptor`'s wrapper applied to one call of the wrapped
function `func` (identified by its name) with the given `args`/`kwargs`.
`except Exception` only catches instances in the `Exception` hierarchy. -/
def err_interceptor (err_raise : Option ExcOrType) (err_annotated : Option String)
    (args_to_annotate : Bool) (log_obj : Option Unit) (from_err : Bool)
    (log_level : Nat) (func_name : String) (call : CallResult)
    (args : List PrimVal) (kwargs : List (String × PrimVal)) : WrapOutcome :=
  match call with
  | .ok v => ⟨[], .ret v⟩
  | .exc e =>
    if e.isException then
      let err_a := _err_annotated_msg err_annotated args_to_annotate args kwargs
      let lr := intercept_err_and_log (.inst e) err_a err_raise log_obj log_level
        from_err (.func func_name)
      ⟨lr.1, .raised lr.2⟩
    else
      ⟨[], .raised ⟨e, none⟩⟩

/-- The inner `get_err_msg` helper of `raise_if_return`'s wrapper. -/
def get_err_msg (res : PyVal) (e_msg_annotate : Option String) : String :=
  match e_msg_annotate with
  | none => res.pyStr
  | some a => a ++ ", " ++ res.pyStr

/-- `decorators.raise_if_return`'s wrapper applied to one call.  There is no
`try`/`except`, so an exception from the wrapped function propagates
untouched; a returned value is classified by the inner `is_raise`. -/
def raise_if_return (exception : ExcOrType) (err_msg_annotate : Option String)
    (log_obj : Option Unit) (log_level : Nat) (raise_by_type : List PyType)
    (raise_by_none : Bool) (func_name : String) (call : CallResult) : WrapOutcome :=
  match call with
  | .exc e => ⟨[], .raised ⟨e, none⟩⟩
  | .ok result =>
    let is_raise := pyIsinstance result raise_by_type
      || (result == .prim .none && raise_by_none)
    if ¬ is_raise then ⟨[], .ret result⟩
    else
      let err : ExcOrType :=
        if is_pure_exc_class exception then
          .inst (instantiate_with exception (get_err_msg result err_msg_annotate))
        else exception
      let lr := intercept_err_and_log err none none log_obj log_level true
        (.func func_name)
      ⟨lr.1, .raised lr.2⟩

/-- `decorators.err_log_and_return`'s wrapper applied to one call: on a caught
exception, log (a logging failure propagates instead) and return
`err_output`. -/
def err_log_and_return (err_output : PyVal) (err_annotated : Option String)
    (args_to_annotate : Bool) (log_obj : Option Unit) (log_level : Nat)
    (func_name : String) (call : CallResult)
    (args : List PrimVal) (kwargs : List (String × PrimVal)) : WrapOutcome :=
  match call with
  | .ok v => ⟨[], .ret v⟩
  | .exc e =>
    if e.isException then
      match log_err (.err (.inst e))
          (_err_annotated_msg err_annotated args_to_annotate args kwargs)
          log_obj log_level (.func func_name) with
      | .error r => ⟨[], .raised r⟩
      | .ok rec => ⟨[rec], .ret err_output⟩
    else ⟨[], .raised ⟨e, none⟩⟩

/-- C1: in `raise_except`, `raise err_raise from err if from_err else err_raise`
parses as `raise err_raise from (err if from_err else err_raise)`, so with
`from_err = false` a substitution still records a causal link — the raised
substituted error's declared cause is the substituted error itself, not
nothing.  Evaluated through `err_interceptor` at a concrete call. -/
theorem raise_substituted_self_cause_when_from_err_false :
    err_interceptor (some (.inst ⟨"ValueError", "sub", true⟩)) none false (some ()) false 40 "f"
      (.exc ⟨"KeyError", "orig", true⟩) [] []
    = ⟨[⟨40, "<f> KeyError: orig"⟩],
       .raised ⟨⟨"ValueError", "sub", true⟩, some ⟨"ValueError", "sub", true⟩⟩⟩ := by decide

/-- C2: in `raise_if_return`, when the configured target is already an error
instance and `err_msg_annotate` was supplied, the emitted log record contains
no trace of the annotated text — `intercept_err_and_log` is called without the
`err_annotated` argument, contradicting the decorator's own docstring, which
promises the text is sent for logging on the instance path. -/
theorem raise_if_return_instance_target_drops_annotated_text :
    raise_if_return (.inst ⟨"ValueError", "boom", true⟩) (some "ctx") (some ()) 40
      [PyType.str] false "f" (.ok (.prim (.str "bad")))
    = ⟨[⟨40, "<f> ValueError: boom"⟩],
       .raised ⟨⟨"ValueError", "boom", true⟩, none⟩⟩ := by decide

/-- C3: with no `log_obj`, every interception disposition aborts before any
re-raise or fallback return: `log_err` raises `AttributeError` («Отсутствует
объект логирования») through `raise_type`, no record is emitted, the captured
error is not the one re-raised and no fallback is returned. -/
theorem missing_log_obj_aborts_disposition (e : ExcVal) (hE : e.isException = true)
    (er : Option ExcOrType) (ea : Option String) (a2a fe : Bool) (lvl : Nat)
    (fn : String) (args : List PrimVal) (kws : List (String × PrimVal)) (out : PyVal)
    (sf : SourceFunc) (err : ExcOrType) :
    intercept_err_and_log err ea er none lvl fe sf
      = ([], ⟨⟨"AttributeError", "Отсутствует объект логирования", true⟩, none⟩)
    ∧ err_interceptor er ea a2a none fe lvl fn (.exc e) args kws
      = ⟨[], .raised ⟨⟨"AttributeError", "Отсутствует объект логирования", true⟩, none⟩⟩
    ∧ err_log_and_return out ea a2a none lvl fn (.exc e) args kws
      = ⟨[], .raised ⟨⟨"AttributeError", "Отсутствует объект логирования", true⟩, none⟩⟩ := by
  obtain ⟨cn, m, iE⟩ := e
  have h : iE = true := hE
  subst h
  exact ⟨rfl, rfl, rfl⟩

/-- C3 witness: concrete instantiation of `missing_log_obj_aborts_disposition`. -/
theorem missing_log_obj_aborts_disposition_witness :
    intercept_err_and_log (.inst ⟨"KeyError", "orig", true⟩) none none none 40 true .none
      = ([], ⟨⟨"AttributeError", "Отсутствует объект логирования", true⟩, none⟩)
    ∧ err_interceptor none none false none true 40 "f"
        (.exc ⟨"KeyError", "orig", true⟩) [] []
      = ⟨[], .raised ⟨⟨"AttributeError", "Отсутствует объект логирования", true⟩, none⟩⟩
    ∧ err_log_and_return (.dict []) none false none 40 "f"
        (.exc ⟨"KeyError", "orig", true⟩) [] []
      = ⟨[], .raised ⟨⟨"AttributeError", "Отсутствует объект логирования", true⟩, none⟩⟩ :=
  missing_log_obj_aborts_disposition ⟨"KeyError", "orig", true⟩ rfl none none false true 40 "f"
    [] [] (.dict []) .none (.inst ⟨"KeyError", "orig", true⟩)

/-- C4 counterexample: the composer does not render the claimed bare-label
string `f ctx args=(1,), kwargs={}: ValueError: boom` — the source label is
wrapped in angle brackets by `annotated_msg_err`. -/
theorem compose_label_bare_counterexample :
    get_simple_or_annotated (.err (.inst ⟨"ValueError", "boom", true⟩)) "f"
      (_err_annotated_msg (some "ctx") true [.int 1] [])
    ≠ "f ctx args=(1,), kwargs=\x7b\x7d: ValueError: boom" := by decide

/-- C4 (amended): composing with an error instance, source label `f`,
annotated text `ctx` and argument capture of `(1,)` / `\x7b\x7d` renders
exactly `<f> ctx args=(1,), kwargs=\x7b\x7d: <errtext>`: the source label is
wrapped in angle brackets, the annotated text and the argument dump precede
the error text, the argument fragment follows the annotated text after a
single space, and `: ` separates the annotation block from the error text. -/
theorem compose_ordering_bracketed_label (cn m : String) :
    get_simple_or_annotated (.err (.inst ⟨cn, m, true⟩)) "f"
      (_err_annotated_msg (some "ctx") true [.int 1] [])
    = "<f> ctx args=(1,), kwargs=\x7b\x7d: " ++ (cn ++ ": " ++ m) := rfl

/-- C5: `err_interceptor` with no `err_raise` and a logger present re-raises
exactly the error the wrapped function raised, with no declared cause. -/
theorem interceptor_no_target_reraises_same_error (e : ExcVal) (hE : e.isException = true)
    (ea : Option String) (a2a fe : Bool) (lvl : Nat) (fn : String)
    (args : List PrimVal) (kws : List (String × PrimVal)) :
    (err_interceptor none ea a2a (some ()) fe lvl fn (.exc e) args kws).result
    = .raised ⟨e, none⟩ := by
  obtain ⟨cn, m, iE⟩ := e
  have h : iE = true := hE
  subst h
  rfl

/-- C5 witness: concrete instantiation of
`interceptor_no_target_reraises_same_error`. -/
theorem interceptor_no_target_reraises_same_error_witness :
    (err_interceptor none none false (some ()) true 40 "f"
        (.exc ⟨"KeyError", "orig", true⟩) [] []).result
    = .raised ⟨⟨"KeyError", "orig", true⟩, none⟩ :=
  interceptor_no_target_reraises_same_error ⟨"KeyError", "orig", true⟩ rfl none false true
    40 "f" [] []

/-- C6: under the default policy (`raise_by_type=(str,)`,
`raise_by_none=False`) a non-string return (including `None`) passes through
unchanged with no log and no raise; a string return produces exactly one log
record and a raise; a `None` return triggers once `raise_by_none` is true. -/
theorem raise_if_return_default_policy (exc : ExcOrType) (ann : Option String)
    (lvl : Nat) (fn : String) :
    (∀ (v : PyVal) (lo : Option Unit), v.typeOf ≠ PyType.str →
        raise_if_return exc ann lo lvl [PyType.str] false fn (.ok v) = ⟨[], .ret v⟩)
    ∧ (∀ s : String,
        (raise_if_return exc ann (some ()) lvl [PyType.str] false fn
            (.ok (.prim (.str s)))).logs.length = 1
        ∧ (raise_if_return exc ann (some ()) lvl [PyType.str] false fn
            (.ok (.prim (.str s)))).result.isRaised = true)
    ∧ (raise_if_return exc ann (some ()) lvl [PyType.str] true fn
        (.ok (.prim .none))).result.isRaised = true := by
  refine ⟨fun v lo hv => ?_, fun s => ⟨rfl, rfl⟩, rfl⟩
  simp [raise_if_return, pyIsinstance, hv]

/-- C6 witness: concrete instantiations of `raise_if_return_default_policy`. -/
theorem raise_if_return_default_policy_witness :
    raise_if_return (.cls "ValueError" true) none (some ()) 40 [PyType.str] false "f"
        (.ok (.prim (.int 2))) = ⟨[], .ret (.prim (.int 2))⟩
    ∧ (raise_if_return (.cls "ValueError" true) none (some ()) 40 [PyType.str] false "f"
        (.ok (.prim (.str "bad")))).logs.length = 1
    ∧ (raise_if_return (.cls "ValueError" true) none (some ()) 40 [PyType.str] false "f"
        (.ok (.prim (.str "bad")))).result.isRaised = true
    ∧ (raise_if_return (.cls "ValueError" true) none (some ()) 40 [PyType.str] true "f"
        (.ok (.prim .none))).result.isRaised = true :=
  ⟨(raise_if_return_default_policy (.cls "ValueError" true) none 40 "f").1
      (.prim (.int 2)) (some ()) (by decide),
   ((raise_if_return_default_policy (.cls "ValueError" true) none 40 "f").2.1 "bad").1,
   ((raise_if_return_default_policy (.cls "ValueError" true) none 40 "f").2.1 "bad").2,
   (raise_if_return_default_policy (.cls "ValueError" true) none 40 "f").2.2⟩

/-- C7: when `raise_if_return`'s target is a pure exception class and the
return value triggers, the raised error is a fresh instance of that class
whose message is `str(result)` without an annotated prefix, and
`err_msg_annotate ++ ", " ++ str(result)` with one; no cause is declared. -/
theorem raise_if_return_class_target_fresh_instance (n : String) (ann : Option String)
    (lvl : Nat) (fn : String) (v : PyVal) (ts : List PyType) (rbn : Bool)
    (hv : (pyIsinstance v ts || (v == PyVal.prim PrimVal.none && rbn)) = true) :
    (raise_if_return (.cls n true) ann (some ()) lvl ts rbn fn (.ok v)).result
    = .raised ⟨⟨n,
        (match ann with
         | Option.none => v.pyStr
         | Option.some a => a ++ ", " ++ v.pyStr), true⟩, none⟩ := by
  cases ann <;>
    simp [raise_if_return, hv, get_err_msg, instantiate_with, is_pure_exc_class,
      ExcOrType.instantiate, intercept_err_and_log, log_err, raise_except]

/-- C7 witness: concrete instantiation of
`raise_if_return_class_target_fresh_instance`. -/
theorem raise_if_return_class_target_fresh_instance_witness :
    (raise_if_return (.cls "ValueError" true) (some "ctx") (some ()) 40 [PyType.str] false "f"
        (.ok (.prim (.str "bad")))).result
    = .raised ⟨⟨"ValueError", "ctx, bad", true⟩, none⟩ :=
  raise_if_return_class_target_fresh_instance "ValueError" (some "ctx") 40 "f"
    (.prim (.str "bad")) [PyType.str] false (by decide)

/-- C8: when the wrapped function returns normally (and, for
`raise_if_return`, the value does not trigger), each of the three decorators
returns the wrapped function's value unchanged and emits no log record. -/
theorem wrappers_passthrough_on_success (v : PyVal) (er : Option ExcOrType)
    (ea ann : Option String) (a2a : Bool) (lo lo2 : Option Unit) (fe : Bool)
    (lvl lvl2 : Nat) (fn : String) (args : List PrimVal)
    (kws : List (String × PrimVal)) (exc : ExcOrType) (ts : List PyType)
    (rbn : Bool) (out : PyVal)
    (hv : (pyIsinstance v ts || (v == PyVal.prim PrimVal.none && rbn)) = false) :
    err_interceptor er ea a2a lo fe lvl fn (.ok v) args kws = ⟨[], .ret v⟩
    ∧ raise_if_return exc ann lo2 lvl2 ts rbn fn (.ok v) = ⟨[], .ret v⟩
    ∧ err_log_and_return out ea a2a lo lvl fn (.ok v) args kws = ⟨[], .ret v⟩ := by
  refine ⟨rfl, ?_, rfl⟩
  simp [raise_if_return, hv]

/-- C8 witness: concrete instantiation of `wrappers_passthrough_on_success`. -/
theorem wrappers_passthrough_on_success_witness :
    err_interceptor none none false (some ()) true 40 "f" (.ok (.prim (.int 7))) [] []
      = ⟨[], .ret (.prim (.int 7))⟩
    ∧ raise_if_return (.cls "ValueError" true) none (some ()) 40 [PyType.str] false "f"
        (.ok (.prim (.int 7))) = ⟨[], .ret (.prim (.int 7))⟩
    ∧ err_log_and_return (.dict []) none false (some ()) 40 "f" (.ok (.prim (.int 7))) [] []
      = ⟨[], .ret (.prim (.int 7))⟩ :=
  wrappers_passthrough_on_success (.prim (.int 7)) none none none false (some ()) (some ())
    true 40 40 "f" [] [] (.cls "ValueError" true) [PyType.str] false (.dict []) (by decide)

/-- C9: `err_log_and_return` with a logger configured, on a caught exception,
emits exactly one log record and returns the configured `err_output`; nothing
is raised and no substitution or chaining occurs. -/
theorem log_and_return_fallback_after_one_record (e : ExcVal) (hE : e.isException = true)
    (out : PyVal) (ea : Option String) (a2a : Bool) (lvl : Nat) (fn : String)
    (args : List PrimVal) (kws : List (String × PrimVal)) :
    err_log_and_return out ea a2a (some ()) lvl fn (.exc e) args kws
    = ⟨[⟨lvl, get_simple_or_annotated (.err (.inst e)) fn
          (_err_annotated_msg ea a2a args kws)⟩], .ret out⟩ := by
  obtain ⟨cn, m, iE⟩ := e
  have h : iE = true := hE
  subst h
  rfl

/-- C9 witness: concrete instantiation of
`log_and_return_fallback_after_one_record`. -/
theorem log_and_return_fallback_after_one_record_witness :
    err_log_and_return (.dict []) none false (some ()) 40 "loadConfig"
        (.exc ⟨"FileNotFoundError", "missing", true⟩) [] []
    = ⟨[⟨40, "<loadConfig> FileNotFoundError: missing"⟩], .ret (.dict [])⟩ :=
  log_and_return_fallback_after_one_record ⟨"FileNotFoundError", "missing", true⟩ rfl
    (.dict []) none false 40 "loadConfig" [] []

/-- C10: an exception outside the `Exception` hierarchy (a
`BaseException`-only kind such as `SystemExit`) is not caught by `except
Exception`: it propagates out of `err_interceptor` and `err_log_and_return`
unchanged, with no log record, no substitution and no fallback return. -/
theorem base_exception_not_intercepted (e : ExcVal) (hE : e.isException = false)
    (er : Option ExcOrType) (ea : Option String) (a2a : Bool) (lo : Option Unit)
    (fe : Bool) (lvl : Nat) (fn : String) (args : List PrimVal)
    (kws : List (String × PrimVal)) (out : PyVal) :
    err_interceptor er ea a2a lo fe lvl fn (.exc e) args kws = ⟨[], .raised ⟨e, none⟩⟩
    ∧ err_log_and_return out ea a2a lo lvl fn (.exc e) args kws
      = ⟨[], .raised ⟨e, none⟩⟩ := by
  obtain ⟨cn, m, iE⟩ := e
  have h : iE = false := hE
  subst h
  exact ⟨rfl, rfl⟩

/-- C10 witness: concrete instantiation of `base_exception_not_intercepted`. -/
theorem base_exception_not_intercepted_witness :
    err_interceptor none none false (some ()) true 40 "f"
        (.exc ⟨"SystemExit", "0", false⟩) [] []
      = ⟨[], .raised ⟨⟨"SystemExit", "0", false⟩, none⟩⟩
    ∧ err_log_and_return (.dict []) none false (some ()) 40 "f"
        (.exc ⟨"SystemExit", "0", false⟩) [] []
      = ⟨[], .raised ⟨⟨"SystemExit", "0", false⟩, none⟩⟩ :=
  base_exception_not_intercepted ⟨"SystemExit", "0", false⟩ rfl none none false (some ())
    true 40 "f" [] [] (.dict [])
